import Mathlib

/-!
Shallow embedding of the feature-extraction stage of the MVE bundler
(`src/libs/sfm/bundler_features.cc`, `Features::compute` and its templated
per-view worker `Features::compute<FEATURE>`), together with theorems that
settle the specification claims about it.

Conventions of the embedding:
* image dimensions are natural numbers; the pixel payload of an image is
  abstracted away (decoding, the halving primitive's pixel math and bilinear
  sampling are external collaborators per the spec), so an image is its
  geometry and sampling is an explicit function parameter;
* floating point coordinates and descriptor entries are modelled by rationals;
* the effectful collaborator calls of one per-view task (source-image load,
  detector execution, embedding write-back, durable view save, cache cleanup)
  are recorded in an explicit effect trace;
* the OpenMP loop is modelled as a sequential left-to-right iteration over the
  views; every claim settled against the top level concerns only behaviour
  that is independent of interleaving (validation before/inside the loop and
  the trace of per-view effects).
-/

namespace Mve

/-- Error taxonomy of the orchestrator: `invalid_argument` for the argument
checks and the unrecognized-variant branch, and the fatal per-view
resolution-consistency error of the cache-load path. -/
inductive CompErr where
  | invalidArgument
  | resolutionMismatch
deriving DecidableEq

/-- Image, reduced to its geometry. The pixel payload is external to this
core (spec section 1: generic image decoding and the half-size downsampling
primitive are out of scope), and no modelled claim depends on it. -/
structure Img where
  width : Nat
  height : Nat
deriving DecidableEq

/-- Modelled from the spec: the half-size downsampling primitive of
`mve/image_tools.h` (not in src/), which halves both dimensions with integer
floor division ("integer floor division consistent with the halving
primitive", spec section 4.2). -/
def rescale_half_size (img : Img) : Img :=
  ⟨img.width / 2, img.height / 2⟩

/-- Budget rescale loop of `Features::compute<FEATURE>` (bundler_features.cc
lines 112-118): repeatedly halve while `width*height > max_image_size`,
remembering whether any halving occurred (the `was_scaled` flag). -/
def rescale_to_budget (img : Img) (maxPixels : Nat) : Img × Bool :=
  if img.width * img.height > maxPixels then
    ((rescale_to_budget (rescale_half_size img) maxPixels).1, true)
  else
    (img, false)
termination_by img.width
decreasing_by
  simp only [rescale_half_size]
  rename_i h
  have hw : 0 < img.width := by
    rcases Nat.eq_zero_or_pos img.width with h0 | h0
    · rw [h0] at h; omega
    · exact h0
  omega

/-- Halving loop of the cache-load path (bundler_features.cc lines 130-133):
halve while both dimensions strictly exceed the target. -/
def rescale_match_loop (img : Img) (tw th : Nat) : Img :=
  if img.width > tw ∧ img.height > th then
    rescale_match_loop (rescale_half_size img) tw th
  else
    img
termination_by img.width
decreasing_by
  simp only [rescale_half_size]
  rename_i h
  omega

/-- Rescale-to-exact-resolution of the cache-load path (bundler_features.cc
lines 130-139): halve while both dimensions strictly exceed the target, then
fail with the resolution-mismatch error unless the result is exactly the
target resolution. -/
def rescale_to_match (img : Img) (tw th : Nat) : Except CompErr Img :=
  let i := rescale_match_loop img tw th
  if i.width ≠ tw ∨ i.height ≠ th then
    Except.error CompErr.resolutionMismatch
  else
    Except.ok i

/-- Color sample produced by the bilinear-interpolation primitive
(`img->linear_at`), abstracted to a triple of channel values. -/
def Color := ℚ × ℚ × ℚ

/-- A feature descriptor: subpixel position and appearance vector
(spec section 3; the concrete type is `FEATURE::Descriptor`). In C++ the
vector is a fixed-size array whose length is the variant's descriptor
length; here it is a list, and that typing fact becomes a hypothesis where
a claim needs it. -/
structure Descriptor where
  x : ℚ
  y : ℚ
  data : List ℚ
deriving DecidableEq

/-- Modelled from the spec: the cache blob written and read by the
DescriptorCodec (`descriptors_to_embedding` / `embedding_to_descriptors`
live in `sfm/bundler_common.cc`, which is not in src/). The spec requires the
codec to be a lossless round trip of `(width, height, DescriptorSet)`, so the
blob is modelled as that triple itself. -/
structure CacheBlob where
  width : Nat
  height : Nat
  descrs : List Descriptor
deriving DecidableEq

/-- Modelled from the spec: the encoding half of the DescriptorCodec. -/
def descriptors_to_embedding (ds : List Descriptor) (w h : Nat) : CacheBlob :=
  ⟨w, h, ds⟩

/-- Modelled from the spec: the decoding half of the DescriptorCodec,
returning the descriptor set and the resolution it was computed at. -/
def embedding_to_descriptors (b : CacheBlob) : List Descriptor × Nat × Nat :=
  (b.descrs, b.width, b.height)

/-- Modelled from the spec: the relevant fields of `Features::Options`
(declared in `sfm/bundler_features.h`, which is not in src/): names of the
feature-cache embedding and of the source-image embedding, the pixel budget
for the recompute path, and the two behaviour flags. The per-algorithm
sub-options only feed the detector construction, which is abstracted into
the detector function parameter. -/
structure FeatureOpts where
  feature_embedding : String
  image_embedding : String
  max_image_size : Nat
  force_recompute : Bool
  skip_saving_views : Bool

/-- A camera view: its id, its named data embeddings (the cache store,
accessed by `has_data_embedding` / `get_data` / `set_data`) and its images
by embedding name (`get_byte_image`). -/
structure View where
  id : Nat
  data : List (String × CacheBlob)
  images : String → Img

/-- Upsert into a view's named data embeddings, the effect of
`view->set_data(name, blob)`. -/
def setAssoc (l : List (String × CacheBlob)) (k : String) (v : CacheBlob) :
    List (String × CacheBlob) :=
  (k, v) :: l.filter fun p => p.1 ≠ k

/-- The per-view output record (spec section 3; `sfm::bundler::Viewport` from
`sfm/bundler_common.h`, not in src/, restricted to the fields this core
writes). A default-constructed slot is modelled per the spec as
default/empty. -/
structure Viewport where
  width : Nat
  height : Nat
  positions : List (ℚ × ℚ)
  colors : List Color
  descr_data : List ℚ

instance : Inhabited Viewport := ⟨⟨0, 0, [], [], []⟩⟩

/-- The template parameter `FEATURE` of `Features::compute<FEATURE>`:
which detector the per-view worker is instantiated with. -/
inductive Feat where
  | sift
  | surf
deriving DecidableEq

/-- Descriptor length per variant, the two specializations
`Features::descriptor_length<Sift> = 128` and
`Features::descriptor_length<Surf> = 64` (bundler_features.cc lines 67-79). -/
def descriptor_length : Feat → Nat
  | .sift => 128
  | .surf => 64

/-- Modelled from the spec: the runtime algorithm-variant selector
(`FeatureType`, declared in `sfm/bundler_features.h`, not in src/). The
recognized variants are SIFT and SURF; `invalid` stands for any value the
`switch` in `Features::compute` does not recognize. -/
inductive FeatureType where
  | sift_features
  | surf_features
  | invalid
deriving DecidableEq

/-- Observable collaborator calls of one per-view task, in program order:
source-image load, detector execution, cache write-back (`set_data`),
durable save (`save_mve_file`), and the in-memory cache cleanup hook
(`cache_cleanup`). -/
inductive Effect where
  | imageLoad
  | detectorRun
  | setData
  | saveView
  | cacheCleanup
deriving DecidableEq

/-- Outcome of one per-view task: error status (`none` on success), the
view's state after the task (its embeddings may have been rewritten), the
state of the view's output slot after the task, and the trace of effects
that occurred before the task returned or threw. -/
structure ViewResult where
  err : Option CompErr
  view : View
  vp : Option Viewport
  eff : List Effect

/-- Flattening loop of the viewport build (bundler_features.cc lines
158-166): starting at offset `off`, copy each descriptor's vector into the
buffer and advance the write pointer by the descriptor length. -/
def writeAt (buf : List ℚ) (off : Nat) (v : List ℚ) : List ℚ :=
  buf.take off ++ v ++ buf.drop (off + v.length)

/-- Pointer-advancing copy loop: `ptr` starts at `off` and moves by `len`
per descriptor, exactly as `ptr += descr_len` does in the source. -/
def packFrom (len : Nat) : List Descriptor → List ℚ → Nat → List ℚ
  | [], buf, _ => buf
  | d :: ds, buf, off => packFrom len ds (writeAt buf off d.data) (off + len)

/-- Flat descriptor buffer of a viewport: allocate `count * descr_len`
cells (`viewport->descr_data.allocate`), then run the copy loop from
offset 0. -/
def packDescrs (len : Nat) (ds : List Descriptor) : List ℚ :=
  packFrom len ds (List.replicate (ds.length * len) 0) 0

/-- Viewport population (bundler_features.cc lines 151-167): flat descriptor
buffer, one position per descriptor, and one color per descriptor sampled
from the image at the descriptor's subpixel position. The source fills the
three containers in a single loop; the three fields are independent, so they
are rendered as three traversals of the same descriptor list. -/
def buildInto (len : Nat) (sample : Img → ℚ → ℚ → Color) (img : Img)
    (ds : List Descriptor) (vp : Viewport) : Viewport :=
  { vp with
    descr_data := packDescrs len ds
    positions := ds.map fun d => (d.x, d.y)
    colors := ds.map fun d => sample img d.x d.y }

/-- Tail of the per-view worker after descriptors and the working image are
settled (bundler_features.cc lines 141-169): write the current
`(width, height, DescriptorSet)` back to the feature embedding when one is
configured, save the view durably unless suppressed, populate the output
slot when one was requested, and finally release the view's caches. -/
def finishView (opts : FeatureOpts) (f : Feat) (sample : Img → ℚ → ℚ → Color)
    (view : View) (vp0 : Option Viewport) (img : Img)
    (descriptors : List Descriptor) (eff : List Effect) : ViewResult :=
  let st :=
    if opts.feature_embedding ≠ "" then
      let blob := descriptors_to_embedding descriptors img.width img.height
      let view2 : View :=
        { view with data := setAssoc view.data opts.feature_embedding blob }
      if opts.skip_saving_views = false then
        (view2, eff ++ [Effect.setData, Effect.saveView])
      else
        (view2, eff ++ [Effect.setData])
    else (view, eff)
  let vp2 := vp0.map (buildInto (descriptor_length f) sample img descriptors)
  ⟨none, st.1, vp2, st.2 ++ [Effect.cacheCleanup]⟩

/-- One per-view task, `Features::compute<FEATURE>` (bundler_features.cc
lines 81-170). `detect` is the constructed detector's behaviour
(`construct` / `set_image` / `process` / `get_descriptors`), `sample` the
bilinear color primitive; both are external collaborators. The branches:
skip when a cache entry exists, recompute is not forced and no output slot
was requested; otherwise load from cache (recording the cached resolution in
the slot) or recompute on the budget-downscaled image; a cached empty
descriptor set falls through to the detector, as in the source's
`descriptors.empty()` test. -/
def computeView (opts : FeatureOpts) (f : Feat)
    (detect : Img → List Descriptor) (sample : Img → ℚ → ℚ → Color)
    (view : View) (vp0 : Option Viewport) : ViewResult :=
  let has_data := (view.data.lookup opts.feature_embedding).isSome
  if opts.force_recompute = false ∧ has_data = true then
    match vp0, view.data.lookup opts.feature_embedding with
    | none, _ => ⟨none, view, none, []⟩
    | some vp, some blob =>
      let vp := { vp with width := blob.width, height := blob.height }
      let img := view.images opts.image_embedding
      if blob.descrs.isEmpty then
        let img2 := (rescale_to_budget img opts.max_image_size).1
        finishView opts f sample view (some vp) img2 (detect img2)
          [Effect.imageLoad, Effect.detectorRun]
      else
        match rescale_to_match img vp.width vp.height with
        | .error e => ⟨some e, view, some vp, [Effect.imageLoad]⟩
        | .ok img2 =>
          finishView opts f sample view (some vp) img2 blob.descrs
            [Effect.imageLoad]
    | some vp, none => ⟨none, view, some vp, []⟩
  else
    let img := view.images opts.image_embedding
    let img2 := (rescale_to_budget img opts.max_image_size).1
    finishView opts f sample view vp0 img2 (detect img2)
      [Effect.imageLoad, Effect.detectorRun]

/-- A scene: its view list, entries possibly absent (`View::Ptr` may be
null). -/
structure Scene where
  views : List (Option View)

/-- The per-view dispatch loop of `Features::compute` (bundler_features.cc
lines 28-50), iterated sequentially: absent views are skipped, present views
are dispatched on the variant (an unrecognized variant throws inside the
loop), each task reads and writes its own slot of the output collection, and
a failing task aborts the remaining iterations. -/
def computeAll (opts : FeatureOpts) (dS dU : Img → List Descriptor)
    (sample : Img → ℚ → ℚ → Color) (ftype : FeatureType) :
    List (Option View) → Nat → Option (List Viewport) →
    Except CompErr Unit × Option (List Viewport) × List (Nat × Effect)
  | [], _, vps => (Except.ok (), vps, [])
  | none :: rest, i, vps => computeAll opts dS dU sample ftype rest (i + 1) vps
  | some v :: rest, i, vps =>
    let step := fun (f : Feat) (det : Img → List Descriptor) =>
      let vp0 := vps.map fun l => l.getD i default
      let r := computeView opts f det sample v vp0
      let vps2 :=
        match vps, r.vp with
        | some l, some vp => some (l.set i vp)
        | _, _ => vps
      match r.err with
      | some e => (Except.error e, vps2, r.eff.map fun e2 => (i, e2))
      | none =>
        let tailRes := computeAll opts dS dU sample ftype rest (i + 1) vps2
        (tailRes.1, tailRes.2.1, (r.eff.map fun e2 => (i, e2)) ++ tailRes.2.2)
    match ftype with
    | .sift_features => step .sift dS
    | .surf_features => step .surf dU
    | .invalid => (Except.error CompErr.invalidArgument, vps, [])

/-- The entry point `Features::compute(scene, type, viewports)`
(bundler_features.cc lines 8-50): argument validation, reset and pre-size of
the output collection when one is given, then the per-view loop. The result
is the call's error status, the final state of the output collection (`none`
models a null `viewports` pointer) and the trace of per-view effects tagged
with the view index. -/
def compute (opts : FeatureOpts) (dS dU : Img → List Descriptor)
    (sample : Img → ℚ → ℚ → Color) (scene : Option Scene)
    (ftype : FeatureType) (vps0 : Option (List Viewport)) :
    Except CompErr Unit × Option (List Viewport) × List (Nat × Effect) :=
  match scene with
  | none => (Except.error CompErr.invalidArgument, vps0, [])
  | some s =>
    if vps0.isNone = true ∧ opts.feature_embedding = "" then
      (Except.error CompErr.invalidArgument, vps0, [])
    else
      let vps := vps0.map fun _ => List.replicate s.views.length (default : Viewport)
      computeAll opts dS dU sample ftype s.views 0 vps

/-! Concrete inputs used by witnesses and counterexamples. -/

/-- Options used by witness instantiations: a configured feature cache,
pixel budget 100, no forced recompute, durable saves enabled. -/
def wOpts : FeatureOpts := ⟨"features", "undistorted", 100, false, false⟩

/-- A detector behaviour used by witness instantiations: one SIFT-length
descriptor at position (1, 2). -/
def wDet : Img → List Descriptor := fun _ => [⟨1, 2, List.replicate 128 0⟩]

/-- A detector behaviour producing no descriptors. -/
def wDetNone : Img → List Descriptor := fun _ => []

/-- A color-sampling behaviour used by witness instantiations. -/
def wSam : Img → ℚ → ℚ → Color := fun _ _ _ => (0, 0, 0)

/-- A view with no cache entry whose source image is 4x4. -/
def wViewFresh : View := ⟨7, [], fun _ => ⟨4, 4⟩⟩

/-- A cache blob recorded at resolution 5x5 holding one descriptor. -/
def wBlob55 : CacheBlob := ⟨5, 5, [⟨1, 1, []⟩]⟩

/-- A view holding `wBlob55` in the feature cache, with a 4x4 source image:
5x5 cannot be reached from 4x4 by halving, so its load path must fail. -/
def wViewStale : View := ⟨3, [("features", wBlob55)], fun _ => ⟨4, 4⟩⟩

/-- A cache blob recorded at resolution 4x4 holding one descriptor. -/
def wBlob44 : CacheBlob := ⟨4, 4, [⟨1, 1, List.replicate 128 0⟩]⟩

/-- A view holding `wBlob44` in the feature cache, with a 4x4 source image:
its load path succeeds without any halving. -/
def wViewCached : View := ⟨5, [("features", wBlob44)], fun _ => ⟨4, 4⟩⟩

/-- A two-descriptor set with vector length 2, for the viewport-builder
witness. -/
def wDs2 : List Descriptor := [⟨0, 0, [1, 2]⟩, ⟨0, 0, [3, 4]⟩]

/-- Options with no cache-store name configured. -/
def wOptsNoCache : FeatureOpts := ⟨"", "undistorted", 100, false, false⟩

/-! Helper lemmas. -/

/-- The budget loop's exit condition: its result is within the pixel
budget. -/
theorem rescale_to_budget_pix_le (img : Img) (m : Nat) :
    (rescale_to_budget img m).1.width * (rescale_to_budget img m).1.height ≤ m := by
  by_cases h : img.width * img.height > m
  · rw [rescale_to_budget, if_pos h]
    exact rescale_to_budget_pix_le (rescale_half_size img) m
  · rw [rescale_to_budget, if_neg h]
    show img.width * img.height ≤ m
    omega
termination_by img.width
decreasing_by
  simp only [rescale_half_size]
  have hw : 0 < img.width := by
    rcases Nat.eq_zero_or_pos img.width with h0 | h0
    · rw [h0] at h; omega
    · exact h0
  omega

/-- The budget loop sets the `was_scaled` flag whenever the input is
strictly above budget. -/
theorem rescale_to_budget_scaled (img : Img) (m : Nat)
    (h : img.width * img.height > m) : (rescale_to_budget img m).2 = true := by
  rw [rescale_to_budget, if_pos h]

/-- One write of the copy loop, performed right at the end of an already
filled prefix, appends the vector and keeps the tail beyond it. -/
theorem writeAt_append (a b v : List ℚ) :
    writeAt (a ++ b) a.length v = a ++ (v ++ b.drop v.length) := by
  unfold writeAt
  rw [List.take_left]
  have : (a ++ b).drop (a.length + v.length) = b.drop v.length := by
    rw [← List.drop_drop, List.drop_left]
  rw [this, List.append_assoc]

/-- The copy loop over a buffer that is exactly the remaining allocation
produces the concatenation of the descriptor vectors, provided every vector
has the declared length (in C++ this is enforced by the fixed-size
`math::Vector` type of `FEATURE::Descriptor::data`). -/
theorem packFrom_append (len : Nat) (ds : List Descriptor) (a b : List ℚ)
    (hlen : ∀ d ∈ ds, d.data.length = len) (hb : b.length = ds.length * len) :
    packFrom len ds (a ++ b) a.length = a ++ (ds.map fun d => d.data).flatten := by
  induction ds generalizing a b with
  | nil =>
    simp only [List.length_nil, Nat.zero_mul] at hb
    simp [packFrom, List.length_eq_zero.mp hb]
  | cons d ds ih =>
    have hd : d.data.length = len := hlen d (by simp)
    have hrest : ∀ x ∈ ds, x.data.length = len := fun x hx => hlen x (by simp [hx])
    have step : writeAt (a ++ b) a.length d.data = (a ++ d.data) ++ b.drop len := by
      rw [writeAt_append, hd, List.append_assoc]
    have hb2 : (b.drop len).length = ds.length * len := by
      simp only [List.length_drop, hb, List.length_cons]
      ring_nf
      omega
    have hoff : a.length + len = (a ++ d.data).length := by
      simp [hd]
    simp only [packFrom, step, hoff]
    rw [ih (a ++ d.data) (b.drop len) hrest hb2]
    simp

/-- The full flat buffer is the concatenation of the descriptor vectors. -/
theorem packDescrs_eq_flatten (len : Nat) (ds : List Descriptor)
    (hlen : ∀ d ∈ ds, d.data.length = len) :
    packDescrs len ds = (ds.map fun d => d.data).flatten := by
  have h := packFrom_append len ds [] (List.replicate (ds.length * len) 0) hlen (by simp)
  simpa [packDescrs] using h

/-- Length of a concatenation of uniformly sized vectors. -/
theorem flatten_uniform_length (len : Nat) (ds : List Descriptor)
    (hlen : ∀ d ∈ ds, d.data.length = len) :
    ((ds.map fun d => d.data).flatten).length = ds.length * len := by
  induction ds with
  | nil => simp
  | cons d ds ih =>
    have hd : d.data.length = len := hlen d (by simp)
    have hrest : ∀ x ∈ ds, x.data.length = len := fun x hx => hlen x (by simp [hx])
    simp [hd, ih hrest, Nat.succ_mul, Nat.add_comm]

/-- In a concatenation of uniformly sized vectors, the slice at offset
`i * len` is the i-th vector. -/
theorem flatten_uniform_get (len : Nat) (ds : List Descriptor)
    (hlen : ∀ d ∈ ds, d.data.length = len) (i : Nat) (hi : i < ds.length) :
    (((ds.map fun d => d.data).flatten).drop (i * len)).take len = (ds.get ⟨i, hi⟩).data := by
  induction ds generalizing i with
  | nil => simp at hi
  | cons d ds ih =>
    have hd : d.data.length = len := hlen d (by simp)
    have hrest : ∀ x ∈ ds, x.data.length = len := fun x hx => hlen x (by simp [hx])
    cases i with
    | zero =>
      simp only [List.map_cons, List.flatten_cons, Nat.zero_mul, List.drop_zero]
      rw [List.take_left' hd]
      rfl
    | succ i =>
      have hi2 : i < ds.length := by simpa using hi
      have hdrop : ((d.data ++ (ds.map fun d => d.data).flatten).drop (Nat.succ i * len))
          = ((ds.map fun d => d.data).flatten).drop (i * len) := by
        rw [Nat.succ_mul, Nat.add_comm, ← List.drop_drop, List.drop_left' hd]
      simp only [List.map_cons, List.flatten_cons, hdrop]
      rw [ih hrest i hi2]
      rfl

/-- An upsert is immediately visible to a lookup of the same key. -/
theorem lookup_setAssoc_self (l : List (String × CacheBlob)) (k : String) (v : CacheBlob) :
    (setAssoc l k v).lookup k = some v := by
  simp [setAssoc, List.lookup]

/-- The tail of the worker always reports success. -/
theorem finishView_err (opts : FeatureOpts) (f : Feat) (sample : Img → ℚ → ℚ → Color)
    (view : View) (vp0 : Option Viewport) (img : Img) (ds : List Descriptor)
    (eff : List Effect) :
    (finishView opts f sample view vp0 img ds eff).err = none := rfl

/-- The tail of the worker always ends its trace with the
cache-cleanup hook. -/
theorem finishView_last (opts : FeatureOpts) (f : Feat) (sample : Img → ℚ → ℚ → Color)
    (view : View) (vp0 : Option Viewport) (img : Img) (ds : List Descriptor)
    (eff : List Effect) :
    (finishView opts f sample view vp0 img ds eff).eff.getLast? = some Effect.cacheCleanup := by
  simp only [finishView]
  exact List.getLast?_concat _

/-- With a configured feature embedding, the tail of the worker performs the
write-back (leaving an entry under the embedding name) and performs the
durable save exactly when `skip_saving_views` is off. -/
theorem finishView_spec (opts : FeatureOpts) (f : Feat) (sample : Img → ℚ → ℚ → Color)
    (view : View) (vp0 : Option Viewport) (img : Img) (ds : List Descriptor)
    (eff : List Effect) (hfe : opts.feature_embedding ≠ "")
    (hs : Effect.saveView ∉ eff) :
    Effect.setData ∈ (finishView opts f sample view vp0 img ds eff).eff ∧
    (∃ b, ((finishView opts f sample view vp0 img ds eff).view).data.lookup
        opts.feature_embedding = some b) ∧
    (Effect.saveView ∈ (finishView opts f sample view vp0 img ds eff).eff ↔
      opts.skip_saving_views = false) := by
  by_cases hsk : opts.skip_saving_views = false
  · simp [finishView, hfe, hsk, lookup_setAssoc_self]
  · simp [finishView, hfe, hsk, lookup_setAssoc_self, hs]

/-- A successful rescale-to-match lands exactly on the target dimensions
(the final check of bundler_features.cc lines 134-138 admits nothing
else). -/
theorem rescale_to_match_ok_dims (img : Img) (tw th : Nat) (i : Img)
    (h : rescale_to_match img tw th = Except.ok i) :
    i.width = tw ∧ i.height = th := by
  simp only [rescale_to_match] at h
  by_cases hc : (rescale_match_loop img tw th).width ≠ tw ∨
      (rescale_match_loop img tw th).height ≠ th
  · rw [if_pos hc] at h
    exact absurd h (by simp)
  · rw [if_neg hc] at h
    push_neg at hc
    injection h with h2
    rw [← h2]
    exact hc

/-- With a configured feature embedding, the tail of the worker leaves the
view's cache entry holding exactly the encoding of the descriptor set in
use at the working image's dimensions — the write-back content. -/
theorem finishView_writeback (opts : FeatureOpts) (f : Feat)
    (sample : Img → ℚ → ℚ → Color) (view : View) (vp0 : Option Viewport)
    (img : Img) (ds : List Descriptor) (eff : List Effect)
    (hfe : opts.feature_embedding ≠ "") :
    ((finishView opts f sample view vp0 img ds eff).view).data.lookup
        opts.feature_embedding =
      some (descriptors_to_embedding ds img.width img.height) := by
  by_cases hsk : opts.skip_saving_views = false <;>
    simp [finishView, hfe, hsk, lookup_setAssoc_self]

/-- The skip branch: without forced recompute, with a cache entry and with
no output slot, the worker returns at once, leaving everything untouched
and performing no effect. -/
theorem computeView_skip (opts : FeatureOpts) (f : Feat)
    (det : Img → List Descriptor) (sam : Img → ℚ → ℚ → Color) (view : View)
    (h1 : opts.force_recompute = false)
    (h2 : (view.data.lookup opts.feature_embedding).isSome = true) :
    computeView opts f det sam view none = ⟨none, view, none, []⟩ := by
  simp [computeView, h1, h2]

/-- Exhaustive case shape of one per-view task: it is the skip branch, or a
failed load-path rescale (whose trace is just the image load), or it runs the
worker tail after a trace of image load possibly followed by a detector run,
on a working image and descriptor set that are either the budget-downscaled
image with a fresh detection on it, or the cached descriptor set at its
recorded resolution. -/
theorem computeView_shape (opts : FeatureOpts) (f : Feat)
    (det : Img → List Descriptor) (sam : Img → ℚ → ℚ → Color) (view : View)
    (vp0 : Option Viewport) :
    (opts.force_recompute = false ∧
      (view.data.lookup opts.feature_embedding).isSome = true ∧ vp0 = none ∧
      computeView opts f det sam view vp0 = ⟨none, view, none, []⟩) ∨
    (∃ e vp, computeView opts f det sam view vp0 =
      ⟨some e, view, some vp, [Effect.imageLoad]⟩) ∨
    (∃ vpx img2 ds eff,
      (eff = [Effect.imageLoad] ∨ eff = [Effect.imageLoad, Effect.detectorRun]) ∧
      ((img2 = (rescale_to_budget (view.images opts.image_embedding)
          opts.max_image_size).1 ∧ ds = det img2) ∨
       (∃ blob0, view.data.lookup opts.feature_embedding = some blob0 ∧
         ds = blob0.descrs ∧ img2.width = blob0.width ∧ img2.height = blob0.height)) ∧
      computeView opts f det sam view vp0 = finishView opts f sam view vpx img2 ds eff) := by
  by_cases hc : opts.force_recompute = false ∧
      (view.data.lookup opts.feature_embedding).isSome = true
  · obtain ⟨h1, h2⟩ := hc
    obtain ⟨blob, hb⟩ := Option.isSome_iff_exists.mp h2
    cases vp0 with
    | none => exact Or.inl ⟨h1, h2, rfl, computeView_skip opts f det sam view h1 h2⟩
    | some vp =>
      by_cases he : blob.descrs.isEmpty
      · refine Or.inr (Or.inr ⟨some { vp with width := blob.width, height := blob.height },
          (rescale_to_budget (view.images opts.image_embedding) opts.max_image_size).1,
          det (rescale_to_budget (view.images opts.image_embedding) opts.max_image_size).1,
          [Effect.imageLoad, Effect.detectorRun], Or.inr rfl, Or.inl ⟨rfl, rfl⟩, ?_⟩)
        simp [computeView, h1, h2, hb, he]
      · cases hm : rescale_to_match (view.images opts.image_embedding) blob.width blob.height with
        | error e =>
          refine Or.inr (Or.inl ⟨e, { vp with width := blob.width, height := blob.height }, ?_⟩)
          simp [computeView, h1, h2, hb, he, hm]
        | ok img2 =>
          have hdims := rescale_to_match_ok_dims
            (view.images opts.image_embedding) blob.width blob.height img2 hm
          refine Or.inr (Or.inr ⟨some { vp with width := blob.width, height := blob.height },
            img2, blob.descrs, [Effect.imageLoad], Or.inl rfl,
            Or.inr ⟨blob, hb, rfl, hdims.1, hdims.2⟩, ?_⟩)
          simp [computeView, h1, h2, hb, he, hm]
  · refine Or.inr (Or.inr ⟨vp0,
      (rescale_to_budget (view.images opts.image_embedding) opts.max_image_size).1,
      det (rescale_to_budget (view.images opts.image_embedding) opts.max_image_size).1,
      [Effect.imageLoad, Effect.detectorRun], Or.inr rfl, Or.inl ⟨rfl, rfl⟩, ?_⟩)
    rw [computeView.eq_def, if_neg hc]

/-- The dispatch loop under an unrecognized variant: it aborts with the
invalid-argument error at the first present view (leaving the output
collection as it stands and performing no per-view effect), and completes
without error when no view is present. -/
theorem computeAll_invalid (opts : FeatureOpts) (dS dU : Img → List Descriptor)
    (sam : Img → ℚ → ℚ → Color) (l : List (Option View)) (i : Nat)
    (vps : Option (List Viewport)) :
    computeAll opts dS dU sam FeatureType.invalid l i vps =
      (if l.any Option.isSome then (Except.error CompErr.invalidArgument, vps, [])
       else (Except.ok (), vps, [])) := by
  induction l generalizing i with
  | nil => simp [computeAll]
  | cons h t ih =>
    cases h with
    | none => simpa [computeAll] using ih (i + 1)
    | some v => simp [computeAll]

/-- Claim C1, counterexample: calling `compute` with an unrecognized variant
on a scene with no views does not fail at all — it returns successfully,
because the variant check sits inside the per-view loop (and the output
collection has already been reset and pre-sized). So the claim that such a
call always fails with InvalidArgument before any per-view work is false on
the code. -/
theorem C1_invalid_variant_cex :
    compute wOpts wDet wDet wSam (some ⟨[]⟩) FeatureType.invalid (some []) =
      (Except.ok (), some [], []) := by
  simp [compute, computeAll, wOpts]

/-- Claim C1, amended: given otherwise valid arguments, an unrecognized
variant makes the call fail with InvalidArgument at the first present view,
inside the per-view loop — after the output collection has been reset and
pre-sized with default slots, but before any per-view effect (no image load,
no detector run, no write-back); if the scene has no present view, the call
completes without error. -/
theorem C1_invalid_variant_amended (opts : FeatureOpts)
    (dS dU : Img → List Descriptor) (sam : Img → ℚ → ℚ → Color) (s : Scene)
    (vps0 : Option (List Viewport))
    (hargs : vps0.isSome = true ∨ opts.feature_embedding ≠ "") :
    compute opts dS dU sam (some s) FeatureType.invalid vps0 =
      ((if s.views.any Option.isSome then Except.error CompErr.invalidArgument
        else Except.ok ()),
       vps0.map fun _ => List.replicate s.views.length default, []) := by
  have hguard : ¬((vps0.isNone = true) ∧ opts.feature_embedding = "") := by
    rcases hargs with h | h
    · intro hx
      cases vps0 with
      | none => simp at h
      | some l => simp at hx
    · intro hx
      exact h hx.2
  simp only [compute]
  rw [if_neg hguard, computeAll_invalid]
  by_cases hany : s.views.any Option.isSome
  · rw [if_pos hany, if_pos hany]
  · rw [if_neg hany, if_neg hany]

/-- Claim C1, witness: the amended statement applied to a one-view scene
with no output collection but a configured cache store. -/
theorem C1_invalid_variant_witness :
    ((none : Option (List Viewport)).isSome = true ∨ wOpts.feature_embedding ≠ "") ∧
    compute wOpts wDet wDet wSam (some ⟨[some wViewFresh]⟩) FeatureType.invalid none =
      (Except.error CompErr.invalidArgument, none, []) := by
  refine ⟨Or.inr (by simp [wOpts]), ?_⟩
  have h := C1_invalid_variant_amended wOpts wDet wDet wSam ⟨[some wViewFresh]⟩ none
    (Or.inr (by simp [wOpts]))
  simpa using h

/-- Claim C2, evidence of the code bug: on the recompute path the worker
never writes the detector image's resolution into the viewport. Concretely,
for a view with no cache entry and a 4x4 source image within budget (so the
detector ran on a 4x4 image, as the second conjunct shows), the produced
viewport still carries the default resolution (0, 0) although the task
succeeded. The cache write-back of the very same task records 4x4, so the
resolution field of the output record is the slip. -/
theorem C2_recompute_resolution_not_recorded :
    ((computeView wOpts .sift wDet wSam wViewFresh (some default)).vp.map
      fun vp => (vp.width, vp.height)) = some (0, 0) ∧
    (rescale_to_budget (wViewFresh.images wOpts.image_embedding)
      wOpts.max_image_size).1 = ⟨4, 4⟩ ∧
    (computeView wOpts .sift wDet wSam wViewFresh (some default)).err = none := by
  refine ⟨?_, ?_, rfl⟩
  · simp [computeView, wOpts, wViewFresh, wDet, finishView, buildInto, rescale_to_budget]
    exact ⟨rfl, rfl⟩
  · have h1 : wViewFresh.images wOpts.image_embedding = ⟨4, 4⟩ := rfl
    have h2 : wOpts.max_image_size = 100 := rfl
    rw [h1, h2, rescale_to_budget]
    norm_num

/-- Claim C3: `rescale_to_match` either returns an image of exactly the
target dimensions or fails with the resolution-mismatch error; it never
silently returns an image of different dimensions. -/
theorem C3_rescale_match_exact_or_error (img : Img) (tw th : Nat) :
    (∀ i, rescale_to_match img tw th = Except.ok i → i.width = tw ∧ i.height = th) ∧
    (∀ e, rescale_to_match img tw th = Except.error e → e = CompErr.resolutionMismatch) := by
  simp only [rescale_to_match]
  by_cases h : (rescale_match_loop img tw th).width ≠ tw ∨
      (rescale_match_loop img tw th).height ≠ th
  · rw [if_pos h]
    constructor
    · intro i hi
      exact absurd hi (by simp)
    · intro e he
      injection he with h2
      exact h2.symm
  · rw [if_neg h]
    push_neg at h
    constructor
    · intro i hi
      injection hi with h2
      rw [← h2]
      exact h
    · intro e he
      exact absurd he (by simp)

/-- Claim C3, witness: a 256x256 image halves down exactly onto the 64x64
target. -/
theorem C3_rescale_match_witness :
    rescale_to_match ⟨256, 256⟩ 64 64 = Except.ok ⟨64, 64⟩ ∧
    Img.width ⟨64, 64⟩ = 64 ∧ Img.height ⟨64, 64⟩ = 64 := by
  have heval : rescale_to_match ⟨256, 256⟩ 64 64 = Except.ok ⟨64, 64⟩ := by
    simp [rescale_to_match, rescale_match_loop, rescale_half_size]
  exact ⟨heval, (C3_rescale_match_exact_or_error ⟨256, 256⟩ 64 64).1 ⟨64, 64⟩ heval⟩

/-- Claim C4: for every image and positive pixel budget the budget loop
terminates (it is a total function here, by the strictly decreasing width)
with a result within the budget, and any input strictly above budget gets
at least one halving (the `was_scaled` flag is set). -/
theorem C4_rescale_budget_bound (img : Img) (m : Nat) (_hm : 1 ≤ m) :
    (rescale_to_budget img m).1.width * (rescale_to_budget img m).1.height ≤ m ∧
    (img.width * img.height > m → (rescale_to_budget img m).2 = true) :=
  ⟨rescale_to_budget_pix_le img m, rescale_to_budget_scaled img m⟩

/-- Claim C4, witness: a 100x100 image against a budget of 5000 pixels ends
within budget after at least one halving. -/
theorem C4_rescale_budget_witness :
    (1 ≤ 5000) ∧
    ((rescale_to_budget ⟨100, 100⟩ 5000).1.width *
      (rescale_to_budget ⟨100, 100⟩ 5000).1.height ≤ 5000) ∧
    (rescale_to_budget ⟨100, 100⟩ 5000).2 = true :=
  ⟨by norm_num,
   (C4_rescale_budget_bound ⟨100, 100⟩ 5000 (by norm_num)).1,
   (C4_rescale_budget_bound ⟨100, 100⟩ 5000 (by norm_num)).2 (by norm_num)⟩

/-- Claim C5: the viewport builder produces as many positions and colors as
there are descriptors, a flat buffer of exactly `count * descriptor_length`
entries, and descriptor i's vector sits at offset `i * descriptor_length`.
The hypothesis that every vector has the declared length is the C++ typing
fact that `FEATURE::Descriptor::data` is a fixed-size vector. -/
theorem C5_viewport_build_layout (len : Nat) (sample : Img → ℚ → ℚ → Color)
    (img : Img) (ds : List Descriptor) (vp : Viewport)
    (hlen : ∀ d ∈ ds, d.data.length = len) :
    (buildInto len sample img ds vp).positions.length = ds.length ∧
    (buildInto len sample img ds vp).colors.length = ds.length ∧
    (buildInto len sample img ds vp).descr_data.length = ds.length * len ∧
    ∀ i (hi : i < ds.length),
      ((buildInto len sample img ds vp).descr_data.drop (i * len)).take len =
        (ds.get ⟨i, hi⟩).data := by
  refine ⟨by simp [buildInto], by simp [buildInto], ?_, ?_⟩
  · simp [buildInto, packDescrs_eq_flatten len ds hlen, flatten_uniform_length len ds hlen]
  · intro i hi
    simp only [buildInto]
    rw [packDescrs_eq_flatten len ds hlen]
    exact flatten_uniform_get len ds hlen i hi

/-- Claim C5, witness: two descriptors of vector length 2; the slice at
offset `1 * 2` of the flat buffer is the second descriptor's vector. -/
theorem C5_viewport_build_witness :
    (∀ d ∈ wDs2, d.data.length = 2) ∧
    ((buildInto 2 wSam ⟨4, 4⟩ wDs2 default).descr_data.drop (1 * 2)).take 2 = [3, 4] := by
  refine ⟨by decide, ?_⟩
  have h := (C5_viewport_build_layout 2 wSam ⟨4, 4⟩ wDs2 default (by decide)).2.2.2 1 (by decide)
  simpa [wDs2] using h

/-- Claim C6, counterexample: a view that is processed (its task enters the
load path and loads the source image, as the trace shows) while a
cache-store name is configured, yet gets no write-back at all: the stale
5x5 cache entry cannot be matched from the 4x4 source image, and in the code
the resolution check (lines 136-138) precedes the write-back (lines
141-149), so the task throws first and the view — including its cache
entry — is left exactly as it was. This refutes the claim's write-back for
"every view processed ... regardless of which path". -/
theorem C6_writeback_cex :
    wOpts.feature_embedding ≠ "" ∧
    Effect.imageLoad ∈ (computeView wOpts .sift wDet wSam wViewStale (some default)).eff ∧
    Effect.setData ∉ (computeView wOpts .sift wDet wSam wViewStale (some default)).eff ∧
    (computeView wOpts .sift wDet wSam wViewStale (some default)).view = wViewStale := by
  refine ⟨by simp [wOpts], ?_, ?_, ?_⟩ <;>
    simp [computeView, wOpts, wViewStale, wBlob55, rescale_to_match, rescale_match_loop]

/-- Claim C6, amended: whenever a cache-store name is configured and the
view's task did not take the skip branch (it is forced, or has no cache
entry, or an output slot is requested) and the task completed its processing
successfully, the current `(width, height, DescriptorSet)` was encoded and
written back to the view's cache entry regardless of path: the trace records
`set_data`, the durable save happened exactly when `skip_saving_views` is
off, and the entry afterwards holds the encoding of the task's working image
dimensions with the descriptor set in use — the freshly detected set at the
budget-downscaled resolution when the detector ran, or the cached set at its
recorded resolution when the cached set was reused. A processed view whose
load-path resolution check fails gets no write-back (the counterexample),
because the code performs that check before the write-back. -/
theorem C6_writeback_amended (opts : FeatureOpts) (f : Feat)
    (det : Img → List Descriptor) (sam : Img → ℚ → ℚ → Color) (view : View)
    (vp0 : Option Viewport) (hfe : opts.feature_embedding ≠ "")
    (hns : opts.force_recompute = true ∨
      view.data.lookup opts.feature_embedding = none ∨ vp0.isSome = true)
    (herr : (computeView opts f det sam view vp0).err = none) :
    Effect.setData ∈ (computeView opts f det sam view vp0).eff ∧
    (Effect.saveView ∈ (computeView opts f det sam view vp0).eff ↔
      opts.skip_saving_views = false) ∧
    (∃ img2 ds,
      ((computeView opts f det sam view vp0).view).data.lookup
          opts.feature_embedding =
        some (descriptors_to_embedding ds img2.width img2.height) ∧
      ((img2 = (rescale_to_budget (view.images opts.image_embedding)
          opts.max_image_size).1 ∧ ds = det img2) ∨
       (∃ blob0, view.data.lookup opts.feature_embedding = some blob0 ∧
         ds = blob0.descrs ∧ img2.width = blob0.width ∧ img2.height = blob0.height))) := by
  rcases computeView_shape opts f det sam view vp0 with
    ⟨h1, h2, h3, h⟩ | ⟨e, vp, h⟩ | ⟨vpx, img2, ds, eff, heff, hprov, h⟩
  · rcases hns with hx | hx | hx
    · rw [h1] at hx
      cases hx
    · rw [hx] at h2
      simp at h2
    · rw [h3] at hx
      simp at hx
  · rw [h] at herr
    simp at herr
  · rw [h]
    have hs : Effect.saveView ∉ eff := by
      rcases heff with he | he <;> rw [he] <;> simp
    have hspec := finishView_spec opts f sam view vpx img2 ds eff hfe hs
    exact ⟨hspec.1, hspec.2.2,
      img2, ds, finishView_writeback opts f sam view vpx img2 ds eff hfe, hprov⟩

/-- Claim C6, witness: the amended statement at a fresh view (no cache
entry, so the detector path) with a configured cache store — the entry
afterwards encodes the fresh detection at the budget-downscaled (here
unchanged 4x4) resolution, and saving being enabled, the durable save
happened. -/
theorem C6_writeback_amended_witness :
    wOpts.feature_embedding ≠ "" ∧
    wViewFresh.data.lookup wOpts.feature_embedding = none ∧
    (computeView wOpts .sift wDet wSam wViewFresh none).err = none ∧
    (Effect.setData ∈ (computeView wOpts .sift wDet wSam wViewFresh none).eff ∧
     (Effect.saveView ∈ (computeView wOpts .sift wDet wSam wViewFresh none).eff ↔
       wOpts.skip_saving_views = false) ∧
     (∃ img2 ds,
       ((computeView wOpts .sift wDet wSam wViewFresh none).view).data.lookup
           wOpts.feature_embedding =
         some (descriptors_to_embedding ds img2.width img2.height) ∧
       ((img2 = (rescale_to_budget (wViewFresh.images wOpts.image_embedding)
           wOpts.max_image_size).1 ∧ ds = wDet img2) ∨
        (∃ blob0, wViewFresh.data.lookup wOpts.feature_embedding = some blob0 ∧
          ds = blob0.descrs ∧ img2.width = blob0.width ∧ img2.height = blob0.height)))) := by
  refine ⟨by simp [wOpts], rfl, rfl, ?_⟩
  exact C6_writeback_amended wOpts .sift wDet wSam wViewFresh none
    (by simp [wOpts]) (Or.inr (Or.inl rfl)) rfl

/-- Claim C7: without forced recompute, a view with an existing cache entry
and no requested output slot is skipped — no source-image load and no
detector invocation occur (indeed no effect at all). -/
theorem C7_cached_skip_no_load (opts : FeatureOpts) (f : Feat)
    (det : Img → List Descriptor) (sam : Img → ℚ → ℚ → Color) (view : View)
    (h1 : opts.force_recompute = false)
    (h2 : (view.data.lookup opts.feature_embedding).isSome = true) :
    computeView opts f det sam view none = ⟨none, view, none, []⟩ ∧
    Effect.imageLoad ∉ (computeView opts f det sam view none).eff ∧
    Effect.detectorRun ∉ (computeView opts f det sam view none).eff := by
  have h := computeView_skip opts f det sam view h1 h2
  rw [h]
  exact ⟨rfl, by simp, by simp⟩

/-- Claim C7, witness: a view with a valid 4x4 cache entry, no forced
recompute and no output slot is left exactly as it was, with an empty
effect trace. -/
theorem C7_cached_skip_witness :
    wOpts.force_recompute = false ∧
    (wViewCached.data.lookup wOpts.feature_embedding).isSome = true ∧
    computeView wOpts .sift wDet wSam wViewCached none = ⟨none, wViewCached, none, []⟩ := by
  refine ⟨rfl, rfl, ?_⟩
  exact (C7_cached_skip_no_load wOpts .sift wDet wSam wViewCached rfl rfl).1

/-- Claim C8: `compute` fails with InvalidArgument when the scene is absent,
and when no output collection is given while no cache-store name is
configured — in both cases with an empty effect trace, so before any
per-view processing. -/
theorem C8_argument_validation (opts : FeatureOpts) (dS dU : Img → List Descriptor)
    (sam : Img → ℚ → ℚ → Color) (ftype : FeatureType) (vps0 : Option (List Viewport)) :
    (compute opts dS dU sam none ftype vps0 =
      (Except.error CompErr.invalidArgument, vps0, [])) ∧
    (∀ s : Scene, vps0 = none → opts.feature_embedding = "" →
      compute opts dS dU sam (some s) ftype vps0 =
        (Except.error CompErr.invalidArgument, none, [])) := by
  constructor
  · rfl
  · intro s h1 h2
    subst h1
    simp [compute, h2]

/-- Claim C8, witness: both validation failures at concrete inputs — an
absent scene, and a present scene with neither an output collection nor a
configured cache store. -/
theorem C8_argument_validation_witness :
    (compute wOpts wDet wDet wSam none FeatureType.sift_features (some []) =
      (Except.error CompErr.invalidArgument, some [], [])) ∧
    ((none : Option (List Viewport)) = none ∧ wOptsNoCache.feature_embedding = "" ∧
     compute wOptsNoCache wDet wDet wSam (some ⟨[some wViewFresh]⟩)
        FeatureType.sift_features none =
      (Except.error CompErr.invalidArgument, none, [])) := by
  refine ⟨(C8_argument_validation wOpts wDet wDet wSam FeatureType.sift_features (some [])).1,
    rfl, rfl, ?_⟩
  exact (C8_argument_validation wOptsNoCache wDet wDet wSam FeatureType.sift_features
    none).2 ⟨[some wViewFresh]⟩ rfl rfl

/-- Claim C9, counterexample: a failing task does not run the cleanup hook.
A view with a stale 5x5 cache entry and a 4x4 source image fails the
load-path rescale with the resolution-mismatch error, and its trace (just
the image load) contains no cache-cleanup effect — the hook is a plain last
statement, not a scope guard, so it is bypassed by the throw. -/
theorem C9_cleanup_cex :
    (computeView wOpts .sift wDet wSam wViewStale (some default)).err =
      some CompErr.resolutionMismatch ∧
    Effect.cacheCleanup ∉ (computeView wOpts .sift wDet wSam wViewStale (some default)).eff := by
  simp [computeView, wOpts, wViewStale, wBlob55, rescale_to_match, rescale_match_loop]

/-- Claim C9, amended: the cleanup hook runs (as the final action) exactly
when a view's task runs its processing to completion successfully; it does
not run when the task is skipped (empty trace) and not when the task fails. -/
theorem C9_cleanup_amended (opts : FeatureOpts) (f : Feat)
    (det : Img → List Descriptor) (sam : Img → ℚ → ℚ → Color) (view : View)
    (vp0 : Option Viewport) :
    if (computeView opts f det sam view vp0).err = none then
      (computeView opts f det sam view vp0).eff = [] ∨
      (computeView opts f det sam view vp0).eff.getLast? = some Effect.cacheCleanup
    else
      Effect.cacheCleanup ∉ (computeView opts f det sam view vp0).eff := by
  rcases computeView_shape opts f det sam view vp0 with
    ⟨_, _, _, h⟩ | ⟨e, vp, h⟩ | ⟨vpx, img2, ds, eff, _, _, h⟩
  · rw [h]
    simp
  · rw [h]
    simp
  · rw [h]
    rw [if_pos (finishView_err opts f sam view vpx img2 ds eff)]
    exact Or.inr (finishView_last opts f sam view vpx img2 ds eff)

/-- Claim C9, witness: the amended statement instantiated at a skipped view
(successful task, empty trace). -/
theorem C9_cleanup_witness :
    if (computeView wOpts .sift wDet wSam wViewCached none).err = none then
      (computeView wOpts .sift wDet wSam wViewCached none).eff = [] ∨
      (computeView wOpts .sift wDet wSam wViewCached none).eff.getLast? =
        some Effect.cacheCleanup
    else
      Effect.cacheCleanup ∉ (computeView wOpts .sift wDet wSam wViewCached none).eff :=
  C9_cleanup_amended wOpts .sift wDet wSam wViewCached none

/-- Claim C10: on the skip branch (no forced recompute, existing cache
entry, no output requested) the view is left entirely unmodified — no cache
write-back, no durable save, and no cleanup-hook invocation. -/
theorem C10_skip_leaves_view_unmodified (opts : FeatureOpts) (f : Feat)
    (det : Img → List Descriptor) (sam : Img → ℚ → ℚ → Color) (view : View)
    (h1 : opts.force_recompute = false)
    (h2 : (view.data.lookup opts.feature_embedding).isSome = true) :
    (computeView opts f det sam view none).view = view ∧
    Effect.setData ∉ (computeView opts f det sam view none).eff ∧
    Effect.saveView ∉ (computeView opts f det sam view none).eff ∧
    Effect.cacheCleanup ∉ (computeView opts f det sam view none).eff := by
  have h := computeView_skip opts f det sam view h1 h2
  rw [h]
  exact ⟨rfl, by simp, by simp, by simp⟩

/-- Claim C10, witness: the skip branch at a concrete cached view, with a
cache store configured, leaves the view untouched and writes nothing. -/
theorem C10_skip_witness :
    wOpts.force_recompute = false ∧
    (wViewCached.data.lookup wOpts.feature_embedding).isSome = true ∧
    (computeView wOpts .sift wDet wSam wViewCached none).view = wViewCached ∧
    Effect.setData ∉ (computeView wOpts .sift wDet wSam wViewCached none).eff := by
  refine ⟨rfl, rfl, ?_⟩
  have h := C10_skip_leaves_view_unmodified wOpts .sift wDet wSam wViewCached rfl rfl
  exact ⟨h.1, h.2.1⟩

end Mve
